import Mathlib

/-!
Verification of the `useInputValidation` React hook
(`src/src/index.ts` of christoph-fricke/react-use-input-validation).

The hook holds three pieces of state — `value`, `error`, `savePoint` — and
exposes four operations: `setValue`, `validate`, `reset`, `commit`.  The
TypeScript code is generic over the value type `V` and the hint type `E`,
but two of its branches are dynamic JavaScript tests (`typeof result !==
"boolean"` in `validate` and the nullish-coalescing `state ?? value` in
`commit`), so we embed the state over a small domain `JSVal` of JavaScript
runtime values in which booleans, `null`, `undefined`, numbers and strings
are distinguishable, exactly as `typeof` and `??` distinguish them.
-/

/-- A JavaScript runtime value, restricted to the shapes the hook's dynamic
tests can distinguish: `undefined`, `null`, booleans, numbers and strings. -/
inductive JSVal where
  | undef
  | null
  | bool (b : Bool)
  | num (n : Int)
  | str (s : String)
deriving DecidableEq

/-- The JavaScript test `typeof x === "boolean"`. -/
def isBooleanJS : JSVal → Bool
  | .bool _ => true
  | _ => false

/-- The JavaScript nullish test used by the `??` operator:
`x` is nullish iff it is `null` or `undefined`. -/
def isNullish : JSVal → Bool
  | .undef => true
  | .null => true
  | _ => false

/-- The mutable state of one hook instance: the three `useState` cells
`value`, `error` and `savePoint` of `useInputValidation`.  A JavaScript
`error` of `null` is the absent-error state. -/
structure State where
  value : JSVal
  error : JSVal
  savePoint : JSVal
deriving DecidableEq

/-- The immutable construction parameters captured by the hook's closures:
the static hint and the validator.  (The initial value only matters at
construction time; see `useInputValidation`.) -/
structure Config where
  staticHint : JSVal
  validator : JSVal → JSVal

/-- The argument of `setValue`: either a plain value or an updater function,
mirroring the TypeScript parameter type `V | ((prevValue: V) => V)`. -/
inductive Update where
  | val (v : JSVal)
  | fn (f : JSVal → JSVal)

/-- The host framework's `useState` setter contract (spec section 6): a plain
argument replaces the stored value, a function argument is applied to the
value current at the time the update is applied. -/
def applyUpdate (u : Update) (prev : JSVal) : JSVal :=
  match u with
  | .val v => v
  | .fn f => f prev

/-- `setValue(update)`: the hook forwards `update` to the `useState` setter
of the `value` cell; `error` and `savePoint` are separate cells and are not
written. -/
def setValue (s : State) (u : Update) : State :=
  { s with value := applyUpdate u s.value }

/-- `reset()`: `setValue(savePoint); setError(null);`. -/
def reset (s : State) : State :=
  { s with value := s.savePoint, error := JSVal.null }

/-- `commit(state?)`: `setSavePoint(state ?? value)`.  An omitted argument
arrives as `undefined` (`JSVal.undef`); `??` falls through to the current
`value` on both `undefined` and `null`. -/
def commit (s : State) (state : JSVal) : State :=
  { s with savePoint := if isNullish state then s.value else state }

/-- `validate()`: evaluate `validator(value)`; a non-boolean result is
stored in `error` directly and reported invalid, a boolean `false` stores
the static hint, a boolean `true` clears `error`. -/
def validate (cfg : Config) (s : State) : State × Bool :=
  let result := cfg.validator s.value
  if isBooleanJS result = false then
    ({ s with error := result }, false)
  else if result = JSVal.bool false then
    ({ s with error := cfg.staticHint }, false)
  else
    ({ s with error := JSVal.null }, true)

/-- The hook call `useInputValidation(initialValue, staticHint, validator)`:
it captures the hint and the validator and initialises the three state cells
to `initialValue`, `null` and `initialValue`. -/
def useInputValidation (initialValue staticHint : JSVal)
    (validator : JSVal → JSVal) : Config × State :=
  ({ staticHint := staticHint, validator := validator },
   { value := initialValue, error := JSVal.null, savePoint := initialValue })

/-- `error` is reported absent when the `error` cell holds `null`
(the `Valid` mode of the spec's state-machine view). -/
def errorAbsent (s : State) : Bool := s.error == JSVal.null

/-- One invocation of one of the four operations returned by the hook. -/
inductive Op where
  | setValueOp (u : Update)
  | validateOp
  | resetOp
  | commitOp (a : JSVal)

/-- Small-step semantics of a hook instance: the state after executing one
operation (return values of `validate` are dropped here). -/
def step (cfg : Config) (op : Op) (s : State) : State :=
  match op with
  | .setValueOp u => setValue s u
  | .validateOp => (validate cfg s).1
  | .resetOp => reset s
  | .commitOp a => commit s a

/- Concrete instances used by witnesses and counterexamples. -/

/-- A configuration whose validator always rejects with the boolean `false`. -/
def cfgFalse : Config :=
  { staticHint := JSVal.str "Hint", validator := fun _ => JSVal.bool false }

/-- A configuration whose validator always accepts. -/
def cfgTrue : Config :=
  { staticHint := JSVal.str "Hint", validator := fun _ => JSVal.bool true }

/-- A configuration whose validator always returns the dynamic hint
`"Dynamic"`. -/
def cfgDyn : Config :=
  { staticHint := JSVal.str "Hint", validator := fun _ => JSVal.str "Dynamic" }

/-- A configuration whose validator returns the non-boolean value `null`. -/
def cfgNull : Config :=
  { staticHint := JSVal.str "Hint", validator := fun _ => JSVal.null }

/-- A sample state with no error present. -/
def sInit : State :=
  { value := JSVal.str "Init", error := JSVal.null, savePoint := JSVal.str "Init" }

/-- A sample state with an error present. -/
def sErr : State :=
  { value := JSVal.str "A", error := JSVal.str "E", savePoint := JSVal.str "B" }

/-- The updater function `prev => prev + "X"` on strings. -/
def appendX : JSVal → JSVal
  | .str s => JSVal.str (s ++ "X")
  | v => v

/-- `validate` never writes the `value` cell. -/
theorem validate_value_eq (cfg : Config) (s : State) :
    (validate cfg s).1.value = s.value := by
  simp only [validate]
  split
  · rfl
  · split <;> rfl

/-- `validate` never writes the `savePoint` cell. -/
theorem validate_savePoint_eq (cfg : Config) (s : State) :
    (validate cfg s).1.savePoint = s.savePoint := by
  simp only [validate]
  split
  · rfl
  · split <;> rfl

/-! ## Claims -/

/-- C1: for every cell state and every validator result `r = validator(value)`:
if `r` is the boolean `true`, `validate` clears `error` and returns `true`;
if `r` is the boolean `false`, `validate` sets `error` to the static hint and
returns `false`; if `r` is any non-boolean value, `validate` sets `error` to
exactly that value and returns `false`.  No other field changes (the result
records below update only `error`). -/
theorem validate_cases (cfg : Config) (s : State) :
    (cfg.validator s.value = JSVal.bool true →
      validate cfg s = ({ s with error := JSVal.null }, true))
    ∧ (cfg.validator s.value = JSVal.bool false →
      validate cfg s = ({ s with error := cfg.staticHint }, false))
    ∧ (∀ r, cfg.validator s.value = r → isBooleanJS r = false →
      validate cfg s = ({ s with error := r }, false)) := by
  refine ⟨fun h => ?_, fun h => ?_, fun r h hb => ?_⟩
  · simp [validate, h, isBooleanJS]
  · simp [validate, h, isBooleanJS]
  · simp [validate, h, hb]

/-- Witness for C1: each of the three branches of `validate_cases` at a
concrete configuration and state. -/
theorem validate_cases_witness :
    validate cfgTrue sInit = ({ sInit with error := JSVal.null }, true)
    ∧ validate cfgFalse sInit
        = ({ sInit with error := cfgFalse.staticHint }, false)
    ∧ validate cfgDyn sInit
        = ({ sInit with error := JSVal.str "Dynamic" }, false) :=
  ⟨(validate_cases cfgTrue sInit).1 rfl,
   (validate_cases cfgFalse sInit).2.1 rfl,
   (validate_cases cfgDyn sInit).2.2 (JSVal.str "Dynamic") rfl rfl⟩

/-- C2: for every cell state, `reset` sets `value` to the current `savePoint`
and `error` to absent, leaves `savePoint` unchanged, and does not invoke the
validator: its outcome under `step` is the same for every configuration. -/
theorem reset_spec (s : State) :
    reset s = { value := s.savePoint, error := JSVal.null,
                savePoint := s.savePoint }
    ∧ ∀ cfg cfg' : Config, step cfg Op.resetOp s = step cfg' Op.resetOp s :=
  ⟨rfl, fun _ _ => rfl⟩

/-- Counterexample for C3: `commit` with an explicitly supplied `null`
argument does not set `savePoint` to that supplied state — the nullish
coalescing writes the current `value` instead. -/
theorem commit_supplied_null_counterexample :
    (commit sErr JSVal.null).savePoint ≠ JSVal.null
    ∧ (commit sErr JSVal.null).savePoint = sErr.value := by
  exact ⟨by decide, rfl⟩

/-- C3 (amended): `commit(state)` with a supplied non-nullish `state` sets
`savePoint` to that state; `commit()` with no argument (the argument arrives
as `undefined`) sets `savePoint` to the current `value`; in both cases
`value` and `error` are unchanged, so a subsequent `reset` restores the
committed value.  (A supplied nullish `state` behaves as the no-argument
form; see `commit_nullish`.) -/
theorem commit_spec (s : State) (st : JSVal) :
    (isNullish st = false → commit s st = { s with savePoint := st })
    ∧ commit s JSVal.undef = { s with savePoint := s.value }
    ∧ (commit s st).value = s.value
    ∧ (commit s st).error = s.error
    ∧ (isNullish st = false → (reset (commit s st)).value = st)
    ∧ (reset (commit s JSVal.undef)).value = s.value := by
  refine ⟨fun h => ?_, rfl, rfl, rfl, fun h => ?_, rfl⟩ <;>
    simp [commit, reset, h]

/-- Witness for C3: `commit` at the concrete supplied state `"Explicit"`. -/
theorem commit_spec_witness :
    commit sErr (JSVal.str "Explicit")
      = { sErr with savePoint := JSVal.str "Explicit" }
    ∧ (reset (commit sErr (JSVal.str "Explicit"))).value
      = JSVal.str "Explicit" :=
  ⟨(commit_spec sErr (JSVal.str "Explicit")).1 rfl,
   (commit_spec sErr (JSVal.str "Explicit")).2.2.2.2.1 rfl⟩

/-- C4: for every initial value, static hint and validator, the freshly
constructed cell has `value = v0`, `error = null` and `savePoint = v0`, and
the initial state depends on none of the other construction parameters. -/
theorem useInputValidation_initial (v0 hint : JSVal)
    (f : JSVal → JSVal) :
    (useInputValidation v0 hint f).2
      = { value := v0, error := JSVal.null, savePoint := v0 }
    ∧ ∀ (hint' : JSVal) (f' : JSVal → JSVal),
        (useInputValidation v0 hint f).2 = (useInputValidation v0 hint' f').2 :=
  ⟨rfl, fun _ _ => rfl⟩

/-- C5: `setValue` changes only the `value` field — `error` and `savePoint`
are unchanged — and never invokes the validator: its outcome under `step` is
the same for every configuration. -/
theorem setValue_frame (s : State) (u : Update) :
    (setValue s u).error = s.error
    ∧ (setValue s u).savePoint = s.savePoint
    ∧ ∀ cfg cfg' : Config,
        step cfg (Op.setValueOp u) s = step cfg' (Op.setValueOp u) s :=
  ⟨rfl, rfl, fun _ _ => rfl⟩

/-- C6: `setValue` with an updater function replaces `value` with the
function applied to the current value (in particular `prev => prev + "X"`
from `"Initial"` yields `"InitialX"`), and a plain argument replaces `value`
directly. -/
theorem setValue_updater (s : State) (f : JSVal → JSVal) (v : JSVal) :
    setValue s (Update.fn f) = { s with value := f s.value }
    ∧ setValue s (Update.val v) = { s with value := v }
    ∧ (setValue { value := JSVal.str "Initial", error := JSVal.null,
                  savePoint := JSVal.str "Initial" }
        (Update.fn appendX)).value = JSVal.str "InitialX" :=
  ⟨rfl, rfl, rfl⟩

/-- Counterexample for C7: `reset` also writes the `error` field (it clears
it to `null`), so "Error is never set except as an effect of calling
validate" fails: here `step` on `resetOp` changes `error` although the
operation is not `validateOp`. -/
theorem error_writer_counterexample :
    (step cfgTrue Op.resetOp sErr).error ≠ sErr.error
    ∧ Op.resetOp ≠ Op.validateOp := by
  exact ⟨by decide, fun h => Op.noConfusion h⟩

/-- C7 (amended): sole-writer invariant over every single operation step:
`error` is mutated only by `validate` or by `reset`, and `reset` only clears
it to absent; `setValue` never touches `error`; `savePoint` is mutated only
by `commit`; `value` is mutated only by `setValue` and `reset`. -/
theorem step_sole_writers (cfg : Config) (op : Op) (s : State) :
    ((step cfg op s).error ≠ s.error → op = Op.validateOp ∨ op = Op.resetOp)
    ∧ (op = Op.resetOp → (step cfg op s).error = JSVal.null)
    ∧ ((step cfg op s).savePoint ≠ s.savePoint → ∃ a, op = Op.commitOp a)
    ∧ ((step cfg op s).value ≠ s.value →
        (∃ u, op = Op.setValueOp u) ∨ op = Op.resetOp)
    ∧ (∀ u, (step cfg (Op.setValueOp u) s).error = s.error) := by
  refine ⟨?_, ?_, ?_, ?_, fun u => rfl⟩
  · intro h
    cases op with
    | setValueOp u => exact absurd rfl h
    | validateOp => exact Or.inl rfl
    | resetOp => exact Or.inr rfl
    | commitOp a => exact absurd rfl h
  · intro h
    subst h
    rfl
  · intro h
    cases op with
    | setValueOp u => exact absurd rfl h
    | validateOp => exact absurd (validate_savePoint_eq cfg s) h
    | resetOp => exact absurd rfl h
    | commitOp a => exact ⟨a, rfl⟩
  · intro h
    cases op with
    | setValueOp u => exact Or.inl ⟨u, rfl⟩
    | validateOp => exact absurd (validate_value_eq cfg s) h
    | resetOp => exact Or.inr rfl
    | commitOp a => exact absurd rfl h

/-- Witness for C7 (amended): at a concrete state whose `error` is present,
a `validate` step that changes `error` is classified as `validateOp`, and a
`reset` step clears `error`. -/
theorem step_sole_writers_witness :
    (Op.validateOp = Op.validateOp ∨ Op.validateOp = Op.resetOp)
    ∧ (step cfgTrue Op.resetOp sErr).error = JSVal.null :=
  ⟨(step_sole_writers cfgTrue Op.validateOp sErr).1 (by decide),
   (step_sole_writers cfgTrue Op.resetOp sErr).2.1 rfl⟩

/-- C8: `reset` is idempotent — applying it twice yields the same observable
state (value, error, savePoint) as applying it once. -/
theorem reset_idempotent (s : State) : reset (reset s) = reset s := rfl

/-- C9: because `commit` writes `state ?? value`, an explicitly supplied
`null` argument sets `savePoint` to the current `value`, not to `null`, and
behaves exactly as the no-argument (`undefined`) form. -/
theorem commit_nullish (s : State) :
    (commit s JSVal.null).savePoint = s.value
    ∧ commit s JSVal.null = commit s JSVal.undef :=
  ⟨rfl, rfl⟩

/-- C10: if the validator returns `null` as its non-boolean result,
`validate` returns `false` yet stores `null` in `error`, so the cell is
observed in the `Valid` mode (error absent) although validation reported the
value invalid. -/
theorem validate_null_result (cfg : Config) (s : State)
    (h : cfg.validator s.value = JSVal.null) :
    validate cfg s = ({ s with error := JSVal.null }, false)
    ∧ errorAbsent (validate cfg s).1 = true
    ∧ (validate cfg s).2 = false := by
  refine ⟨?_, ?_, ?_⟩ <;> simp [validate, h, isBooleanJS, errorAbsent]

/-- Witness for C10: a validator constantly returning `null` at a concrete
state. -/
theorem validate_null_result_witness :
    validate cfgNull sInit = ({ sInit with error := JSVal.null }, false)
    ∧ errorAbsent (validate cfgNull sInit).1 = true :=
  ⟨(validate_null_result cfgNull sInit rfl).1,
   (validate_null_result cfgNull sInit rfl).2.1⟩
